import Mathlib

/-!
Verification of the FloraLab coordinator against its specification.

The definitions below are shallow embeddings of the Go sources:
* the stack store `FlowerStackManager` (src/unnamed/part_009),
* the HTTP handlers of the control API (src/unnamed/part_004),
* the Caddy proxy controller `AddReverseProxy` (src/florago/utils/caddy.go),
* the client agent's registration phase (src/unnamed/part_002).

Wall-clock times (`time.Now()`) are modelled as `Nat` ticks passed in by the
caller; the Go zero `time.Time` of an unset completion time is modelled as
`Option.none`.  The Go `map[string]*FlowerClientNode` is modelled as an
association list whose insert replaces the binding in place when the key is
already present.  Mutating methods of the manager return the Go error paired
with the new state; a `nil` manager state is `Option.none`.
-/

namespace FloraLab

/-- Embeds `FlowerServerNode` (src/unnamed/part_009, lines 25-36). -/
structure FlowerServerNode where
  nodeID : String
  hostname : String
  ip : String
  superlinkAddress : String
  serverAppIOAPIPort : Int
  fleetAPIPort : Int
  controlAPIPort : Int
  superexecAddress : String
  status : String
  startedAt : Nat
  deriving Repr, DecidableEq

/-- Embeds `FlowerClientNode` (src/unnamed/part_009, lines 39-48). -/
structure FlowerClientNode where
  nodeID : String
  hostname : String
  ip : String
  supernodeAddress : String
  clientAppIOAPIPort : Int
  superexecAddress : String
  status : String
  startedAt : Nat
  deriving Repr, DecidableEq

/-- Embeds `FlowerStackState` (src/unnamed/part_009, lines 11-22). -/
structure FlowerStackState where
  jobID : String
  status : String
  numNodes : Int
  serverNode : Option FlowerServerNode
  clientNodes : List (String × FlowerClientNode)
  startTime : Nat
  completionTime : Option Nat
  expectedNodes : Int
  completedNodes : Int
  deriving Repr, DecidableEq

/-- Go map assignment `m[k] = v`: replace the binding in place when the key
is present, otherwise add it. -/
def mapInsert (k : String) (v : FlowerClientNode) :
    List (String × FlowerClientNode) → List (String × FlowerClientNode)
  | [] => [(k, v)]
  | (k', v') :: rest =>
      if k' = k then (k, v) :: rest else (k', v') :: mapInsert k v rest

/-- Embeds `checkCompletion` (src/unnamed/part_009, lines 166-173): whenever
`CompletedNodes >= ExpectedNodes`, set the status to `running` and stamp the
completion time.  Note the source has no check that the status is not already
`running`. -/
def checkCompletion (now : Nat) (s : FlowerStackState) : FlowerStackState :=
  if s.completedNodes ≥ s.expectedNodes then
    { s with status := "running", completionTime := some now }
  else s

/-- Embeds `InitializeStack` (src/unnamed/part_009, lines 65-78). -/
def InitializeStack (jobID : String) (numNodes : Int) (now : Nat) : FlowerStackState :=
  { jobID := jobID
    status := "pending"
    numNodes := numNodes
    serverNode := none
    clientNodes := []
    startTime := now
    completionTime := none
    expectedNodes := 1 + numNodes
    completedNodes := 0 }

/-- Embeds `RegisterServerNode` (src/unnamed/part_009, lines 80-99): errors if
no stack exists; sets the server node, forces the status to `starting`, and,
when the incoming descriptor is `ready`, increments `CompletedNodes` and runs
the completion check. -/
def RegisterServerNode (node : FlowerServerNode) (now : Nat) :
    Option FlowerStackState → Except String Unit × Option FlowerStackState
  | none => (.error "stack not initialized", none)
  | some s =>
      let s1 := { s with serverNode := some node, status := "starting" }
      let s2 :=
        if node.status = "ready" then
          checkCompletion now { s1 with completedNodes := s1.completedNodes + 1 }
        else s1
      (.ok (), some s2)

/-- Embeds `RegisterClientNode` (src/unnamed/part_009, lines 101-119): errors
if no stack exists; inserts or replaces the client under its `NodeID`, and,
when the incoming descriptor is `ready`, increments `CompletedNodes` and runs
the completion check.  Note the source does not consult the previous status of
an already-registered client before incrementing. -/
def RegisterClientNode (node : FlowerClientNode) (now : Nat) :
    Option FlowerStackState → Except String Unit × Option FlowerStackState
  | none => (.error "stack not initialized", none)
  | some s =>
      let s1 := { s with clientNodes := mapInsert node.nodeID node s.clientNodes }
      let s2 :=
        if node.status = "ready" then
          checkCompletion now { s1 with completedNodes := s1.completedNodes + 1 }
        else s1
      (.ok (), some s2)

/-- Embeds `UpdateServerNodeStatus` (src/unnamed/part_009, lines 121-139).
The `nodeID` argument is accepted but, as in the source, not consulted. -/
def UpdateServerNodeStatus (nodeID : String) (status : String) (now : Nat) :
    Option FlowerStackState → Except String Unit × Option FlowerStackState
  | none => (.error "server node not found", none)
  | some s =>
      match s.serverNode with
      | none => (.error "server node not found", some s)
      | some sn =>
          let oldStatus := sn.status
          let s1 := { s with serverNode := some { sn with status := status } }
          let s2 :=
            if oldStatus ≠ "ready" ∧ status = "ready" then
              checkCompletion now { s1 with completedNodes := s1.completedNodes + 1 }
            else s1
          (.ok (), some s2)

/-- Embeds `UpdateClientNodeStatus` (src/unnamed/part_009, lines 141-164). -/
def UpdateClientNodeStatus (nodeID : String) (status : String) (now : Nat) :
    Option FlowerStackState → Except String Unit × Option FlowerStackState
  | none => (.error "stack not initialized", none)
  | some s =>
      match s.clientNodes.lookup nodeID with
      | none => (.error ("client node not found: " ++ nodeID), some s)
      | some node =>
          let oldStatus := node.status
          let s1 :=
            { s with clientNodes := mapInsert nodeID { node with status := status } s.clientNodes }
          let s2 :=
            if oldStatus ≠ "ready" ∧ status = "ready" then
              checkCompletion now { s1 with completedNodes := s1.completedNodes + 1 }
            else s1
          (.ok (), some s2)

/-- Embeds `GetState` (src/unnamed/part_009, lines 194-226): a deep copy of
the current state, or `nil` when no stack exists. -/
def GetState (st : Option FlowerStackState) : Option FlowerStackState := st

/-- Embeds `ClearState` (src/unnamed/part_009, lines 229-234). -/
def ClearState (_st : Option FlowerStackState) : Option FlowerStackState := none

/-- Embeds `IsStackRunning` (src/unnamed/part_009, lines 236-241): true iff a
stack exists and its status is `starting` or `running`. -/
def IsStackRunning : Option FlowerStackState → Bool
  | none => false
  | some s => s.status = "starting" || s.status = "running"

/-- One mutating call on the stack store, tagged with the tick at which it
arrives. -/
inductive StackOp where
  | registerServer (node : FlowerServerNode) (now : Nat)
  | registerClient (node : FlowerClientNode) (now : Nat)
  | updateServer (nodeID status : String) (now : Nat)
  | updateClient (nodeID status : String) (now : Nat)
  deriving Repr

/-- Runs one stack-store call, keeping the (possibly unchanged) state. -/
def applyOp (op : StackOp) (st : Option FlowerStackState) : Option FlowerStackState :=
  match op with
  | .registerServer node now => (RegisterServerNode node now st).2
  | .registerClient node now => (RegisterClientNode node now st).2
  | .updateServer nodeID status now => (UpdateServerNodeStatus nodeID status now st).2
  | .updateClient nodeID status now => (UpdateClientNodeStatus nodeID status now st).2

/-- Runs a sequence of stack-store calls. -/
def applyOps (ops : List StackOp) (st : Option FlowerStackState) : Option FlowerStackState :=
  ops.foldl (fun st op => applyOp op st) st

/-- The status a snapshot exposes (empty when no stack exists). -/
def statusOf : Option FlowerStackState → String
  | none => ""
  | some s => s.status

/-- Number of observable transitions into status `running` along a trace. -/
def runEnterCount (ops : List StackOp) (st : Option FlowerStackState) : Nat :=
  match ops with
  | [] => 0
  | op :: rest =>
      let st' := applyOp op st
      (if statusOf st ≠ "running" ∧ statusOf st' = "running" then 1 else 0) +
        runEnterCount rest st'

/-! ## Control API handlers (src/unnamed/part_004)

The handlers are embedded as pure functions of the decoded request, the
current store state, the current job id, and an environment record carrying
the outcomes of the external effects (filesystem and scheduler calls).  Each
returns the HTTP result together with the store state and job id after the
handler finishes. -/

/-- Embeds `SpinRequest` (src/unnamed/part_004, lines 25-30). -/
structure SpinRequest where
  numNodes : Int
  partition : String
  memory : String
  timeLimit : String
  deriving Repr, DecidableEq

/-- Embeds `parseJobID` (src/unnamed/part_004, lines 546-551) for outputs of
the documented `sbatch` form: `fmt.Sscanf(output, "Submitted batch job %s")`
scans the token after the literal prefix up to whitespace (the scanned
variable stays empty when the prefix does not match), then trims. -/
def parseJobID (output : String) : String :=
  if output.startsWith "Submitted batch job " then
    ((output.drop ("Submitted batch job ").length).takeWhile (fun c => ¬ c.isWhitespace))
  else ""

/-- Embeds `createFlowerStackScript` (src/unnamed/part_004, lines 554-615).
The logs directory returned by `GetFloraGoLogsDir` is a parameter.  The Go
function never returns a non-nil error, which the `Option String` error
component records. -/
def createFlowerStackScript (req : SpinRequest) (apiHost apiPort logsDir : String) :
    String × Option String :=
  let totalNodes := req.numNodes + 1
  let script :=
    "#!/bin/bash\n" ++
    "#SBATCH --job-name=flower-stack\n" ++
    "#SBATCH --nodes=" ++ toString totalNodes ++ "\n" ++
    "#SBATCH --ntasks-per-node=1\n" ++
    (if req.partition ≠ "" then "#SBATCH --partition=" ++ req.partition ++ "\n" else "") ++
    (if req.memory ≠ "" then "#SBATCH --mem=" ++ req.memory ++ "\n" else "") ++
    (if req.timeLimit ≠ "" then "#SBATCH --time=" ++ req.timeLimit ++ "\n" else "") ++
    "#SBATCH --output=" ++ logsDir ++ "/flower-stack-%j.out\n" ++
    "#SBATCH --error=" ++ logsDir ++ "/flower-stack-%j.err\n" ++
    "\n# Flower Stack Deployment\n" ++
    "# This script deploys 1 server node + N client nodes in parallel\n\n" ++
    "export FLORAGO_API_SERVER=http://" ++ apiHost ++ ":" ++ apiPort ++ "\n\n" ++
    "FLORAGO_BIN=$HOME/florago-amd64\n\n" ++
    "# Create job-specific log directory\n" ++
    "JOB_LOG_DIR=" ++ logsDir ++ "/$\x7bSLURM_JOB_ID\x7d\n" ++
    "mkdir -p $JOB_LOG_DIR\n" ++
    "echo \"Job logs will be written to: $JOB_LOG_DIR\"\n\n" ++
    "# Launch server on first node\n" ++
    "srun --nodes=1 --ntasks=1 --nodelist=$(scontrol show hostname $SLURM_JOB_NODELIST | head -n 1) \\\n" ++
    "  $FLORAGO_BIN flowerserver --api-server $FLORAGO_API_SERVER \\\n" ++
    "  > $JOB_LOG_DIR/flowerserver.log 2>&1 &\n\n" ++
    "# Launch clients on remaining nodes\n" ++
    "if [ $SLURM_NNODES -gt 1 ]; then\n" ++
    "  CLIENT_NODES=$(scontrol show hostname $SLURM_JOB_NODELIST | tail -n +2)\n" ++
    "  CLIENT_INDEX=0\n" ++
    "  for node in $CLIENT_NODES; do\n" ++
    "    srun --nodes=1 --ntasks=1 --nodelist=$node \\\n" ++
    "      $FLORAGO_BIN flowerclient --api-server $FLORAGO_API_SERVER \\\n" ++
    "      > $JOB_LOG_DIR/flowerclient-$\x7bCLIENT_INDEX\x7d.log 2>&1 &\n" ++
    "    CLIENT_INDEX=$((CLIENT_INDEX + 1))\n" ++
    "  done\n" ++
    "fi\n\n" ++
    "# Wait for all background processes\n" ++
    "wait\n"
  (script, none)

/-- Outcomes of the external steps taken by `handleSpinUp`: the logs
directory, the host and port the coordinator listens on, and the results of
`GetFloraGoTempDir`, `WriteFile` and `Sbatch` (combined output on success). -/
structure SpinUpEnv where
  apiHost : String
  apiPort : String
  logsDir : String
  tempDir : Except String String
  writeScript : Except String Unit
  sbatch : Except String String
  now : Nat
  deriving Repr

/-- Result of one `/api/spin` request: HTTP status code, the encoded
`SpinResponse` fields, and the coordinator state after the handler. -/
structure SpinUpResult where
  httpStatus : Nat
  success : Bool
  jobID : String
  message : String
  state : Option FlowerStackState
  newStore : Option FlowerStackState
  newJobID : String
  deriving Repr, DecidableEq

/-- Embeds `handleSpinUp` (src/unnamed/part_004, lines 224-360): validate,
reject while `IsStackRunning`, create and write the job script, submit via
`sbatch`, parse the job id, initialize the store.  Every failure after the
conflict check clears the store, as in the source. -/
def handleSpinUp (req : SpinRequest) (env : SpinUpEnv)
    (store : Option FlowerStackState) (curJobID : String) : SpinUpResult :=
  if req.numNodes < 1 then
    { httpStatus := 400, success := false, jobID := "",
      message := "num_nodes must be at least 1", state := none,
      newStore := store, newJobID := curJobID }
  else if IsStackRunning store then
    { httpStatus := 409, success := false, jobID := "",
      message := "A Flower stack is already running", state := GetState store,
      newStore := store, newJobID := curJobID }
  else
    match (createFlowerStackScript req env.apiHost env.apiPort env.logsDir).2 with
    | some _ =>
        { httpStatus := 500, success := false, jobID := "",
          message := "Failed to create job script", state := none,
          newStore := ClearState store, newJobID := curJobID }
    | none =>
        match env.tempDir with
        | .error _ =>
            { httpStatus := 500, success := false, jobID := "",
              message := "Failed to access temp directory", state := none,
              newStore := ClearState store, newJobID := curJobID }
        | .ok _ =>
            match env.writeScript with
            | .error _ =>
                { httpStatus := 500, success := false, jobID := "",
                  message := "Failed to write job script", state := none,
                  newStore := ClearState store, newJobID := curJobID }
            | .ok _ =>
                match env.sbatch with
                | .error e =>
                    { httpStatus := 500, success := false, jobID := "",
                      message := "Failed to submit job: " ++ e, state := none,
                      newStore := ClearState store, newJobID := curJobID }
                | .ok output =>
                    let jobID := parseJobID output
                    let newStore := some (InitializeStack jobID req.numNodes env.now)
                    { httpStatus := 200, success := true, jobID := jobID,
                      message := "Flower stack job " ++ jobID ++ " submitted successfully",
                      state := GetState newStore,
                      newStore := newStore, newJobID := jobID }

/-- The encoded `SpinResponse` of a successful `GET /api/spin`. -/
structure SpinStatusResponse where
  success : Bool
  jobID : String
  message : String
  state : Option FlowerStackState
  deriving Repr, DecidableEq

/-- Embeds `handleSpinStatus` (src/unnamed/part_004, lines 362-373).  The
source formats `state.Status` without checking the snapshot for `nil`; when
no stack exists `GetState` returns a nil pointer and the dereference panics,
modelled as `none` (no response is produced). -/
def handleSpinStatus (store : Option FlowerStackState) (curJobID : String) :
    Option SpinStatusResponse :=
  match GetState store with
  | none => none
  | some s =>
      some { success := true, jobID := curJobID,
             message := "Stack status: " ++ s.status, state := some s }

/-- Result of one `DELETE /api/spin` request, recording whether and with
which argument `Scancel` was invoked. -/
structure SpinDownResult where
  httpStatus : Nat
  success : Bool
  jobID : String
  message : String
  newStore : Option FlowerStackState
  newJobID : String
  scancelCalled : Bool
  scancelArg : String
  deriving Repr, DecidableEq

/-- Embeds `handleSpinDown` (src/unnamed/part_004, lines 375-413): `404` when
no job id is recorded (no scheduler call); otherwise cancel the job, and only
on a successful cancel clear the store and forget the job id. -/
def handleSpinDown (scancel : Except String Unit)
    (store : Option FlowerStackState) (curJobID : String) : SpinDownResult :=
  if curJobID = "" then
    { httpStatus := 404, success := false, jobID := "",
      message := "No Flower stack is currently running",
      newStore := store, newJobID := curJobID,
      scancelCalled := false, scancelArg := "" }
  else
    match scancel with
    | .error e =>
        { httpStatus := 500, success := false, jobID := "",
          message := "Failed to cancel job: " ++ e,
          newStore := store, newJobID := curJobID,
          scancelCalled := true, scancelArg := curJobID }
    | .ok _ =>
        { httpStatus := 200, success := true, jobID := curJobID,
          message := "Flower stack job " ++ curJobID ++ " cancelled successfully",
          newStore := ClearState store, newJobID := "",
          scancelCalled := true, scancelArg := curJobID }

/-! ## Client agent registration phase (src/unnamed/part_002)

After `waitForServerNode` observes a `ready` server descriptor and both
daemons have been started, `flowerclientCmd` (lines 119-142) registers with
the coordinator: one call to `registerClientNode` with status `starting`
(fatal on error), then one with status `ready` (warning only on error). -/

/-- Embeds `registerClientNode` (src/unnamed/part_002, lines 206-211).  The
source is a stub: it prints `Would register client node to <url>` and returns
`nil` — it performs no HTTP request.  The first component counts the HTTP
POSTs issued to the coordinator's client-registration endpoint (zero). -/
def registerClientNodePosts (_apiServerURL : String) (_node : FlowerClientNode) :
    Nat × Except String Unit :=
  (0, .ok ())

/-- Embeds the registration phase of `flowerclientCmd` (src/unnamed/part_002,
lines 119-142), counting the client-registration POSTs the agent issues: one
`registerClientNode` call with status `starting` (the agent exits fatally on
error), then one with status `ready` (error only logged). -/
def flowerclientRegistrationPosts (apiServerURL : String) (node : FlowerClientNode) : Nat :=
  let r1 := registerClientNodePosts apiServerURL { node with status := "starting" }
  match r1.2 with
  | .error _ => r1.1
  | .ok _ =>
      let r2 := registerClientNodePosts apiServerURL { node with status := "ready" }
      r1.1 + r2.1

/-! ## Proxy controller (src/florago/utils/caddy.go)

`AddReverseProxy` reads the Caddyfile line by line with a `bufio.Scanner`,
refuses to act when any existing line contains the marker
`# Flower Control API - Port <n>` as a substring (`strings.Contains`), and
otherwise appends the route block and rewrites the file, joining the old
lines with newlines.  The file is modelled at the line level (`List Char`
per line, no line containing a newline, as the scanner guarantees); the
appended configuration starts with a newline, so re-splitting the rewritten
content yields the old lines — with a single leading empty line when the old
file was empty — followed by the four block lines. -/

/-- The marker prefix common to all route blocks. -/
def markerStem : List Char := "# Flower Control API - Port ".data

/-- The de-duplication marker line for one external port
(caddy.go, line 187). -/
def marker (localPort : Nat) : List Char := markerStem ++ (toString localPort).data

/-- The `:<n> \x7b` opening line of a route block (caddy.go, line 198). -/
def portOpenLine (localPort : Nat) : List Char :=
  (":" ++ toString localPort ++ " \x7b").data

/-- The `reverse_proxy` line of a route block (caddy.go, line 199). -/
def proxyTargetLine (targetAddress : String) (targetPort : Nat) : List Char :=
  ("\treverse_proxy " ++ targetAddress ++ ":" ++ toString targetPort).data

/-- The closing line of a route block (caddy.go, line 200). -/
def closeLine : List Char := "\x7d".data

/-- `strings.Contains(s, sub)`: whether `sub` occurs contiguously in `s`. -/
def subOccurs : (sub s : List Char) → Bool
  | sub, [] => sub.isEmpty
  | sub, c :: rest => sub.isPrefixOf (c :: rest) || subOccurs sub rest

/-- The duplicate check of `AddReverseProxy` (caddy.go, lines 186-193):
some line of the file contains the marker for `localPort`. -/
def hasMarker (localPort : Nat) (file : List (List Char)) : Bool :=
  file.any (fun line => subOccurs (marker localPort) line)

/-- Embeds `AddReverseProxy` (caddy.go, lines 163-212) at the line level:
a no-op when the marker for `localPort` already occurs in some line,
otherwise the route block is appended (after a leading empty line when the
file was empty, from joining zero lines before the newline-led block). -/
def AddReverseProxy (localPort : Nat) (targetAddress : String) (targetPort : Nat)
    (file : List (List Char)) : List (List Char) :=
  if hasMarker localPort file then file
  else
    (if file.isEmpty then [([] : List Char)] else file) ++
      [marker localPort, portOpenLine localPort,
       proxyTargetLine targetAddress targetPort, closeLine]

/-- A sequence of `add_route` calls applied in order. -/
def applyRoutes (ops : List (Nat × String × Nat)) (file : List (List Char)) :
    List (List Char) :=
  ops.foldl (fun f op => AddReverseProxy op.1 op.2.1 op.2.2 f) file

/-- The number of lines of the file that are exactly the marker line for
`localPort` (each route block contributes exactly its own marker line). -/
def markerCount (localPort : Nat) (file : List (List Char)) : Nat :=
  file.countP (fun line => line == marker localPort)

/-! ## Concrete fixtures

Descriptors and states as the handlers of src/unnamed/part_004 build them
(node ids `server-<ip>` and `client-<ip>`, registration status `ready`),
used to evaluate the definitions at the spec's seed-scenario inputs. -/

/-- The server descriptor built by `makeFlowerServerHandler` for the seed
registration from 10.0.0.1 with ports 9091/9092/9093. -/
def srvReady : FlowerServerNode :=
  { nodeID := "server-10.0.0.1", hostname := "", ip := "10.0.0.1",
    superlinkAddress := "", serverAppIOAPIPort := 9091,
    fleetAPIPort := 9092, controlAPIPort := 9093,
    superexecAddress := "", status := "ready", startedAt := 1 }

/-- The same server descriptor arriving with status `starting`. -/
def srvStarting : FlowerServerNode := { srvReady with status := "starting" }

/-- The client descriptor built by `makeFlowerClientHandler` for a
registration from the given address. -/
def cliReady (ipa : String) : FlowerClientNode :=
  { nodeID := "client-" ++ ipa, hostname := "", ip := ipa,
    supernodeAddress := "", clientAppIOAPIPort := 0,
    superexecAddress := "", status := "ready", startedAt := 2 }

/-- The stack immediately after the seed spin-up `num_nodes = 2` with
scheduler job id 12345: status `pending`, three expected nodes. -/
def pendingStack : FlowerStackState := InitializeStack "12345" 2 0

/-- A stack with one expected client (spin-up `num_nodes = 1`). -/
def pendingStack1 : FlowerStackState := InitializeStack "12345" 1 0

/-- The pending seed stack after its server registered (status `starting`). -/
def startingStack : FlowerStackState :=
  (RegisterServerNode srvReady 1 (some pendingStack)).2.getD pendingStack

/-- A spin-up environment in which every external step succeeds and the
scheduler answers with the documented submission line. -/
def envOK : SpinUpEnv :=
  { apiHost := "0.0.0.0", apiPort := "8080", logsDir := "/home/u/.florago/logs",
    tempDir := .ok "/home/u/.florago/tmp", writeScript := .ok (),
    sbatch := .ok "Submitted batch job 67890", now := 5 }

/-! ## Claims -/

/-- C2 (code_bug): the spec requires the client agent, after observing a
ready server and starting its daemons, to POST exactly one client
registration and treat a registration error as fatal.  In the source,
`registerClientNode` (src/unnamed/part_002, lines 206-211) is a stub that
prints a line and returns nil, so the agent's registration phase issues zero
HTTP POSTs to the coordinator (and it invokes the registration routine
twice, with status `starting` and then `ready`). -/
theorem flowerclient_registration_never_posts :
    ∀ (url : String) (node : FlowerClientNode),
      flowerclientRegistrationPosts url node = 0 := by
  intro url node
  rfl

/-- C5 (code_bug): registering the same client node id with status `ready`
twice increments `CompletedNodes` both times — the source
(`RegisterClientNode`, src/unnamed/part_009, lines 101-119) never consults
the previous status of the entry, so the counter reaches 2 after the second
identical call instead of staying at 1 as the spec requires. -/
theorem duplicate_ready_client_double_increments :
    (((RegisterClientNode (cliReady "10.0.0.2") 3
        ((RegisterClientNode (cliReady "10.0.0.2") 2 (some pendingStack)).2)).2).map
      (fun s => s.completedNodes) = some 2) ∧
    (((RegisterClientNode (cliReady "10.0.0.2") 2 (some pendingStack)).2).map
      (fun s => s.completedNodes) = some 1) := by
  exact ⟨rfl, rfl⟩

/-- C1 (code_bug): after spin-up with two expected clients, a server
registration and two identical ready registrations of the same client node
drive the stack into status `running` while only one distinct client is
recorded — `running` holds with `|clients| = 1 ≠ 2 = expected_clients`,
violating the spec's §3 invariant.  The trace evaluates to status `running`,
one client entry, `num_nodes = 2`, `completed = 3`, `expected = 3`. -/
theorem running_with_missing_client :
    (applyOps
        [ .registerServer srvReady 1,
          .registerClient (cliReady "10.0.0.2") 2,
          .registerClient (cliReady "10.0.0.2") 3 ]
        (some pendingStack)).map
      (fun s => (s.status, s.clientNodes.length, s.numNodes,
        s.completedNodes, s.expectedNodes)) =
      some ("running", 1, 2, 3, 3) := by
  rfl

/-- C6 (code_bug): `handleSpinStatus` (src/unnamed/part_004, lines 362-373)
formats `state.Status` without a nil check, so `GET /api/spin` with no stack
present dereferences a nil pointer and panics instead of answering
`success:true` with a null state: the handler produces no response. -/
theorem spin_status_panics_without_stack :
    handleSpinStatus none "" = none ∧
    ∀ (s : FlowerStackState) (cur : String),
      handleSpinStatus (some s) cur =
        some { success := true, jobID := cur,
               message := "Stack status: " ++ s.status, state := some s } := by
  exact ⟨rfl, fun s cur => rfl⟩

/-- C9 (confirmed): `DELETE /api/spin` with no recorded job id answers 404,
never invokes the scheduler's cancel command, and leaves the store and the
job id unchanged. -/
theorem teardown_without_stack_is_notfound :
    ∀ (st : Option FlowerStackState) (scancel : Except String Unit),
      handleSpinDown scancel st "" =
        { httpStatus := 404, success := false, jobID := "",
          message := "No Flower stack is currently running",
          newStore := st, newJobID := "",
          scancelCalled := false, scancelArg := "" } := by
  intro st scancel
  rfl

/-- The completion check never changes the node counters. -/
lemma checkCompletion_counters (now : Nat) (s : FlowerStackState) :
    (checkCompletion now s).completedNodes = s.completedNodes ∧
    (checkCompletion now s).expectedNodes = s.expectedNodes := by
  unfold checkCompletion
  split <;> exact ⟨rfl, rfl⟩

/-- Each stack-store operation keeps the state present and either leaves
`CompletedNodes` unchanged or increments it by one. -/
lemma completedNodes_step (op : StackOp) (s : FlowerStackState) :
    ∃ s', applyOp op (some s) = some s' ∧
      (s'.completedNodes = s.completedNodes ∨
       s'.completedNodes = s.completedNodes + 1) := by
  cases op with
  | registerServer node now =>
      refine ⟨_, rfl, ?_⟩
      simp only [applyOp, RegisterServerNode]
      split
      · right; exact (checkCompletion_counters now _).1
      · left; rfl
  | registerClient node now =>
      refine ⟨_, rfl, ?_⟩
      simp only [applyOp, RegisterClientNode]
      split
      · right; exact (checkCompletion_counters now _).1
      · left; rfl
  | updateServer nodeID status now =>
      cases hs : s.serverNode with
      | none =>
          refine ⟨s, ?_, Or.inl rfl⟩
          simp only [applyOp, UpdateServerNodeStatus, hs]
      | some sn =>
          simp only [applyOp, UpdateServerNodeStatus, hs]
          refine ⟨_, rfl, ?_⟩
          split
          · right; exact (checkCompletion_counters now _).1
          · left; rfl
  | updateClient nodeID status now =>
      cases hs : s.clientNodes.lookup nodeID with
      | none =>
          refine ⟨s, ?_, Or.inl rfl⟩
          simp only [applyOp, UpdateClientNodeStatus, hs]
      | some node =>
          simp only [applyOp, UpdateClientNodeStatus, hs]
          refine ⟨_, rfl, ?_⟩
          split
          · right; exact (checkCompletion_counters now _).1
          · left; rfl

/-- Along any trace of stack-store calls the counter never decreases. -/
lemma completedNodes_mono_trace (ops : List StackOp) :
    ∀ s : FlowerStackState, ∃ s',
      applyOps ops (some s) = some s' ∧ s.completedNodes ≤ s'.completedNodes := by
  induction ops with
  | nil => exact fun s => ⟨s, rfl, le_refl _⟩
  | cons op rest ih =>
      intro s
      obtain ⟨s1, h1, hc⟩ := completedNodes_step op s
      obtain ⟨s', h', hle⟩ := ih s1
      refine ⟨s', ?_, ?_⟩
      · simpa [applyOps, h1] using h'
      · rcases hc with h | h <;> omega

/-- C10 (confirmed): between initialize and clear, `CompletedNodes` is
non-decreasing — every stack-store operation (`RegisterServerNode`,
`RegisterClientNode`, `UpdateServerNodeStatus`, `UpdateClientNodeStatus`)
keeps the stack present and either leaves the counter unchanged or
increments it by one, so along any trace the counter never decreases. -/
theorem completed_nodes_nondecreasing :
    (∀ (op : StackOp) (s : FlowerStackState), ∃ s',
        applyOp op (some s) = some s' ∧
          (s'.completedNodes = s.completedNodes ∨
           s'.completedNodes = s.completedNodes + 1)) ∧
    (∀ (ops : List StackOp) (s : FlowerStackState), ∃ s',
        applyOps ops (some s) = some s' ∧
          s.completedNodes ≤ s'.completedNodes) :=
  ⟨completedNodes_step, fun ops s => completedNodes_mono_trace ops s⟩

/-- C4 (counterexample): the status can transition into `running` twice in
one stack lifetime.  With one expected client: server registers ready
(`starting`, count 1), a client registers ready (count 2 = expected,
`running`), the server re-registers with status `starting` (status forced
back to `starting`), and a second client registers ready (completion check
fires again, `running`).  Two observable transitions into `running`. -/
theorem stack_reenters_running :
    runEnterCount
      [ .registerServer srvReady 1,
        .registerClient (cliReady "10.0.0.2") 2,
        .registerServer srvStarting 3,
        .registerClient (cliReady "10.0.0.3") 4 ]
      (some pendingStack1) = 2 := by
  rfl

/-- C4 (corrected): entry into `running` happens only through the completion
check — any stack-store operation that moves the status from non-`running`
to `running` did so by incrementing `CompletedNodes` to at least
`ExpectedNodes` (the source's `checkCompletion` has no guard on the current
status, and a server re-registration can reset the status to `starting`, so
such an entry can happen more than once per lifetime). -/
theorem running_entered_only_via_completion :
    ∀ (op : StackOp) (s s' : FlowerStackState),
      applyOp op (some s) = some s' →
      s.status ≠ "running" → s'.status = "running" →
      s'.completedNodes = s.completedNodes + 1 ∧
      s'.expectedNodes = s.expectedNodes ∧
      s'.expectedNodes ≤ s'.completedNodes := by
  intro op s s' h1 h2 h3
  cases op with
  | registerServer node now =>
      simp only [applyOp, RegisterServerNode, Option.some.injEq] at h1
      split at h1
      · unfold checkCompletion at h1
        split at h1
        · subst h1; exact ⟨rfl, rfl, by assumption⟩
        · subst h1; simp at h3
      · subst h1; simp at h3
  | registerClient node now =>
      simp only [applyOp, RegisterClientNode, Option.some.injEq] at h1
      split at h1
      · unfold checkCompletion at h1
        split at h1
        · subst h1; exact ⟨rfl, rfl, by assumption⟩
        · subst h1; exact absurd h3 h2
      · subst h1; exact absurd h3 h2
  | updateServer nodeID status now =>
      cases hs : s.serverNode with
      | none =>
          simp only [applyOp, UpdateServerNodeStatus, hs, Option.some.injEq] at h1
          subst h1; exact absurd h3 h2
      | some sn =>
          simp only [applyOp, UpdateServerNodeStatus, hs, Option.some.injEq] at h1
          split at h1
          · unfold checkCompletion at h1
            split at h1
            · subst h1; exact ⟨rfl, rfl, by assumption⟩
            · subst h1; exact absurd h3 h2
          · subst h1; exact absurd h3 h2
  | updateClient nodeID status now =>
      cases hs : s.clientNodes.lookup nodeID with
      | none =>
          simp only [applyOp, UpdateClientNodeStatus, hs, Option.some.injEq] at h1
          subst h1; exact absurd h3 h2
      | some node =>
          simp only [applyOp, UpdateClientNodeStatus, hs, Option.some.injEq] at h1
          split at h1
          · unfold checkCompletion at h1
            split at h1
            · subst h1; exact ⟨rfl, rfl, by assumption⟩
            · subst h1; exact absurd h3 h2
          · subst h1; exact absurd h3 h2

/-- The state reached when a single expected node registers ready on a
one-node stack: the completion check fires and the status is `running`. -/
def enteredRunningState : FlowerStackState :=
  (applyOp (.registerClient (cliReady "10.0.0.2") 1)
    (some (InitializeStack "j" 0 0))).getD (InitializeStack "j" 0 0)

/-- C4 (witness): the corrected statement applied at a concrete entry into
`running` — a ready client registration completing a stack that expects one
node. -/
theorem running_entered_only_via_completion_witness :
    applyOp (.registerClient (cliReady "10.0.0.2") 1)
        (some (InitializeStack "j" 0 0)) = some enteredRunningState ∧
    (InitializeStack "j" 0 0).status ≠ "running" ∧
    enteredRunningState.status = "running" ∧
    (enteredRunningState.completedNodes = (InitializeStack "j" 0 0).completedNodes + 1 ∧
     enteredRunningState.expectedNodes = (InitializeStack "j" 0 0).expectedNodes ∧
     enteredRunningState.expectedNodes ≤ enteredRunningState.completedNodes) :=
  ⟨rfl, by decide, rfl,
    running_entered_only_via_completion (.registerClient (cliReady "10.0.0.2") 1)
      (InitializeStack "j" 0 0) enteredRunningState rfl (by decide) rfl⟩

/-- C7 (counterexample): tear-down with a recorded job id whose cancel
command fails answers 500 and leaves the store untouched — the stack is
still present after the handler returns, so the store is not cleared
unconditionally. -/
theorem store_kept_when_cancel_fails :
    (handleSpinDown (.error "scancel failed") (some pendingStack) "12345").newStore =
        some pendingStack ∧
    (handleSpinDown (.error "scancel failed") (some pendingStack) "12345").httpStatus = 500 ∧
    (handleSpinDown (.error "scancel failed") (some pendingStack) "12345").scancelCalled = true ∧
    (handleSpinDown (.error "scancel failed") (some pendingStack) "12345").scancelArg =
        "12345" := by
  exact ⟨rfl, rfl, rfl, rfl⟩

/-- C7 (corrected): tear-down with a recorded job id always asks the
scheduler to cancel that job, but clears the store only when the cancel
succeeds; on a failed cancel it answers 500 and leaves the store and the
recorded job id unchanged. -/
theorem teardown_clears_only_on_success :
    ∀ (st : Option FlowerStackState) (cur e : String), cur ≠ "" →
      ((handleSpinDown (.ok ()) st cur).newStore = none ∧
       (handleSpinDown (.ok ()) st cur).httpStatus = 200 ∧
       (handleSpinDown (.ok ()) st cur).scancelCalled = true ∧
       (handleSpinDown (.ok ()) st cur).scancelArg = cur ∧
       (handleSpinDown (.ok ()) st cur).newJobID = "") ∧
      ((handleSpinDown (.error e) st cur).newStore = st ∧
       (handleSpinDown (.error e) st cur).httpStatus = 500 ∧
       (handleSpinDown (.error e) st cur).scancelCalled = true ∧
       (handleSpinDown (.error e) st cur).newJobID = cur) := by
  intro st cur e h
  simp [handleSpinDown, h, ClearState]

/-- C7 (witness): the corrected statement applied at the recorded job id
12345 with a pending stack in the store, for a succeeding and for a failing
cancel. -/
theorem teardown_clears_only_on_success_witness :
    ("12345" ≠ "") ∧
    (handleSpinDown (.ok ()) (some pendingStack) "12345").newStore = none ∧
    (handleSpinDown (.error "boom") (some pendingStack) "12345").newStore =
      some pendingStack :=
  ⟨by decide,
   (teardown_clears_only_on_success (some pendingStack) "12345" "boom" (by decide)).1.1,
   (teardown_clears_only_on_success (some pendingStack) "12345" "boom" (by decide)).2.1⟩

/-- C3 (counterexample): a stack that exists in status `pending` —
immediately after a successful spin-up, before any agent registered — does
not cause `POST /api/spin` to be rejected: `IsStackRunning` is false for
`pending`, the conflict check is passed, and with a succeeding scheduler the
second spin-up answers 200 `success:true` (re-submitting and
re-initializing) instead of the claimed 409. -/
theorem pending_stack_spinup_not_conflict :
    pendingStack.status = "pending" ∧
    IsStackRunning (some pendingStack) = false ∧
    (handleSpinUp ⟨2, "", "", ""⟩ envOK (some pendingStack) "12345").httpStatus = 200 ∧
    (handleSpinUp ⟨2, "", "", ""⟩ envOK (some pendingStack) "12345").success = true := by
  exact ⟨rfl, rfl, rfl, rfl⟩

/-- C3 (corrected): `POST /api/spin` with a valid node count is answered
409 CONFLICT — with the current snapshot, which carries the existing job id,
and without touching the store or the recorded job id — exactly when the
existing stack's status is `starting` or `running` (`IsStackRunning`); when
`IsStackRunning` is false (no stack, or a stack in `pending`, `stopped` or
`failed`), the handler never answers 409. -/
theorem spinup_conflict_iff_starting_or_running :
    ∀ (req : SpinRequest) (env : SpinUpEnv) (store : Option FlowerStackState)
      (cur : String), ¬ req.numNodes < 1 →
      (IsStackRunning store = true →
        (handleSpinUp req env store cur).httpStatus = 409 ∧
        (handleSpinUp req env store cur).success = false ∧
        (handleSpinUp req env store cur).state = store ∧
        (handleSpinUp req env store cur).newStore = store ∧
        (handleSpinUp req env store cur).newJobID = cur) ∧
      (IsStackRunning store = false →
        (handleSpinUp req env store cur).httpStatus ≠ 409) := by
  intro req env store cur hn
  constructor
  · intro hrun
    simp [handleSpinUp, hn, hrun, GetState]
  · intro hrun
    simp only [handleSpinUp, if_neg hn]
    rw [if_neg (by simp [hrun])]
    simp only [createFlowerStackScript]
    rcases env with ⟨host, port, logs, td, ws, sb, n⟩
    cases td <;> cases ws <;> cases sb <;> simp

lemma isPrefixOf_self_char (l : List Char) : l.isPrefixOf l = true := by
  induction l with
  | nil => rfl
  | cons c r ih => simp [List.isPrefixOf, ih]

lemma subOccurs_self (l : List Char) : subOccurs l l = true := by
  cases l with
  | nil => rfl
  | cons c r => simp [subOccurs, isPrefixOf_self_char]

lemma hasMarker_of_count_pos (p : Nat) (f : List (List Char)) :
    0 < markerCount p f → hasMarker p f = true := by
  intro hp
  unfold markerCount at hp
  rw [List.countP_pos_iff] at hp
  obtain ⟨line, hmem, hl⟩ := hp
  unfold hasMarker
  rw [List.any_eq_true]
  refine ⟨line, hmem, ?_⟩
  rw [eq_of_beq hl]
  exact subOccurs_self _

lemma markerCount_eq_zero (p : Nat) (f : List (List Char)) :
    hasMarker p f = false → markerCount p f = 0 := by
  intro h
  by_contra hne
  have := hasMarker_of_count_pos p f (Nat.pos_of_ne_zero hne)
  rw [this] at h
  cases h

lemma marker_head (p : Nat) : ∃ t, marker p = '#' :: t := ⟨_, rfl⟩

lemma portOpen_head (p : Nat) : ∃ t, portOpenLine p = ':' :: t := ⟨_, rfl⟩

lemma proxyTarget_head (a : String) (tp : Nat) :
    ∃ t, proxyTargetLine a tp = '\t' :: t := ⟨_, rfl⟩

lemma empty_ne_marker (p : Nat) : ([] : List Char) ≠ marker p := by
  obtain ⟨t, ht⟩ := marker_head p
  rw [ht]
  exact fun h => List.noConfusion h

lemma portOpen_ne_marker (q p : Nat) : portOpenLine q ≠ marker p := by
  obtain ⟨t, ht⟩ := marker_head p
  obtain ⟨u, hu⟩ := portOpen_head q
  rw [ht, hu]
  intro h
  injection h with h1 _
  exact absurd h1 (by decide)

lemma proxyTarget_ne_marker (a : String) (tp p : Nat) :
    proxyTargetLine a tp ≠ marker p := by
  obtain ⟨t, ht⟩ := marker_head p
  obtain ⟨u, hu⟩ := proxyTarget_head a tp
  rw [ht, hu]
  intro h
  injection h with h1 _
  exact absurd h1 (by decide)

lemma close_ne_marker (p : Nat) : closeLine ≠ marker p := by
  obtain ⟨t, ht⟩ := marker_head p
  rw [ht, closeLine]
  intro h
  injection h with h1 _
  exact absurd h1 (by decide)

lemma markerCount_append (p : Nat) (f g : List (List Char)) :
    markerCount p (f ++ g) = markerCount p f + markerCount p g := by
  unfold markerCount
  exact List.countP_append _ _ _

lemma markerCount_block (p q : Nat) (a : String) (tp : Nat) :
    markerCount p [marker q, portOpenLine q, proxyTargetLine a tp, closeLine] =
      if marker q = marker p then 1 else 0 := by
  by_cases h : marker q = marker p <;>
    simp [markerCount, List.countP_cons, h, portOpen_ne_marker,
      proxyTarget_ne_marker, close_ne_marker]

lemma hasMarker_congr (q r : Nat) (f : List (List Char)) (h : marker q = marker r) :
    hasMarker q f = hasMarker r f := by
  unfold hasMarker
  rw [h]

lemma markerCount_singleton_empty (r : Nat) :
    markerCount r [([] : List Char)] = 0 := by
  simp [markerCount, List.countP_cons]
  exact fun h => empty_ne_marker r h.symm

lemma addReverseProxy_le_one (q : Nat) (a : String) (tp : Nat)
    (f : List (List Char)) (hI : ∀ r, markerCount r f ≤ 1) (r : Nat) :
    markerCount r (AddReverseProxy q a tp f) ≤ 1 := by
  unfold AddReverseProxy
  by_cases hm : hasMarker q f = true
  · simp only [hm, if_true]
    exact hI r
  · rw [if_neg (by simp [hm])]
    rw [markerCount_append, markerCount_block]
    replace hm : hasMarker q f = false := by simpa using hm
    by_cases he : marker q = marker r
    · rw [if_pos he]
      have h0 : markerCount r f = 0 :=
        markerCount_eq_zero r f (by rw [← hasMarker_congr q r f he]; exact hm)
      by_cases hfe : f.isEmpty
      · simp [hfe, markerCount_singleton_empty]
      · simp [hfe, h0]
    · rw [if_neg he]
      by_cases hfe : f.isEmpty
      · simp [hfe, markerCount_singleton_empty]
      · simpa [hfe] using hI r

lemma applyRoutes_le_one (ops : List (Nat × String × Nat)) :
    ∀ f : List (List Char), (∀ r, markerCount r f ≤ 1) →
      ∀ r, markerCount r (applyRoutes ops f) ≤ 1 := by
  induction ops with
  | nil => exact fun f h => h
  | cons op rest ih =>
      intro f h r
      exact ih (AddReverseProxy op.1 op.2.1 op.2.2 f)
        (addReverseProxy_le_one op.1 op.2.1 op.2.2 f h) r

lemma hasMarker_addReverseProxy (p : Nat) (a : String) (tp : Nat)
    (f : List (List Char)) : hasMarker p (AddReverseProxy p a tp f) = true := by
  unfold AddReverseProxy
  by_cases hm : hasMarker p f = true
  · simp [hm]
  · rw [if_neg (by simp [hm])]
    unfold hasMarker
    rw [List.any_append]
    have : List.any [marker p, portOpenLine p, proxyTargetLine a tp, closeLine]
        (fun line => subOccurs (marker p) line) = true := by
      simp [subOccurs_self]
    rw [this, Bool.or_true]

lemma addReverseProxy_noop (p : Nat) (a : String) (tp : Nat)
    (a' : String) (tp' : Nat) (f : List (List Char)) :
    AddReverseProxy p a' tp' (AddReverseProxy p a tp f) = AddReverseProxy p a tp f := by
  have hg := hasMarker_addReverseProxy p a tp f
  conv_lhs => rw [AddReverseProxy]
  rw [if_pos hg]

lemma markerCount_first_add (p : Nat) (a : String) (tp : Nat)
    (f : List (List Char)) (hclean : hasMarker p f = false) :
    markerCount p (AddReverseProxy p a tp f) = 1 := by
  unfold AddReverseProxy
  rw [if_neg (by simp [hclean])]
  rw [markerCount_append, markerCount_block, if_pos rfl]
  have h0 : markerCount p f = 0 := markerCount_eq_zero p f hclean
  by_cases hfe : f.isEmpty
  · simp [hfe, markerCount_singleton_empty]
  · simp [hfe, h0]

/-- C8 (confirmed): starting from a Caddyfile with no route marker, after
any sequence of `add_route` calls the configuration contains at most one
route block per external-port marker line; `AddReverseProxy(p, a, q)`
followed by `AddReverseProxy(p, a', q')` leaves exactly one block for `p` —
the one from the first call — and the second call is a no-op. -/
theorem caddyfile_one_block_per_port :
    ∀ f : List (List Char), (∀ r, hasMarker r f = false) →
      (∀ (ops : List (Nat × String × Nat)) (r : Nat),
          markerCount r (applyRoutes ops f) ≤ 1) ∧
      (∀ (p : Nat) (a : String) (q : Nat) (a' : String) (q' : Nat),
          AddReverseProxy p a' q' (AddReverseProxy p a q f) =
            AddReverseProxy p a q f) ∧
      (∀ (p : Nat) (a : String) (q : Nat),
          markerCount p (AddReverseProxy p a q f) = 1) := by
  intro f hclean
  refine ⟨?_, ?_, ?_⟩
  · intro ops r
    refine applyRoutes_le_one ops f (fun r => ?_) r
    rw [markerCount_eq_zero r f (hclean r)]
    exact Nat.zero_le 1
  · intro p a q a' q'
    exact addReverseProxy_noop p a q a' q' f
  · intro p a q
    exact markerCount_first_add p a q f (hclean p)

/-- C8 (witness): the confirmed statement applied to the seed route
9093 -> 10.0.0.1:9093 on an initially marker-free file. -/
theorem caddyfile_one_block_per_port_witness :
    markerCount 9093 (AddReverseProxy 9093 "10.0.0.1" 9093 []) = 1 ∧
    AddReverseProxy 9093 "10.0.0.2" 9094 (AddReverseProxy 9093 "10.0.0.1" 9093 []) =
      AddReverseProxy 9093 "10.0.0.1" 9093 [] := by
  have hclean : ∀ r, hasMarker r ([] : List (List Char)) = false := fun _ => rfl
  exact ⟨(caddyfile_one_block_per_port [] hclean).2.2 9093 "10.0.0.1" 9093,
         (caddyfile_one_block_per_port [] hclean).2.1 9093 "10.0.0.1" 9093 "10.0.0.2" 9094⟩

/-- C3 (witness): the corrected statement applied to a stack in status
`starting` (server registered on the seed stack): the second spin-up is
answered 409 and the snapshot in the response is the existing stack with job
id 12345. -/
theorem spinup_conflict_iff_starting_or_running_witness :
    (¬ (2 : Int) < 1) ∧
    IsStackRunning (some startingStack) = true ∧
    ((handleSpinUp ⟨2, "", "", ""⟩ envOK (some startingStack) "12345").httpStatus = 409 ∧
     (handleSpinUp ⟨2, "", "", ""⟩ envOK (some startingStack) "12345").success = false ∧
     (handleSpinUp ⟨2, "", "", ""⟩ envOK (some startingStack) "12345").state =
        some startingStack ∧
     (handleSpinUp ⟨2, "", "", ""⟩ envOK (some startingStack) "12345").newStore =
        some startingStack ∧
     (handleSpinUp ⟨2, "", "", ""⟩ envOK (some startingStack) "12345").newJobID =
        "12345") ∧
    startingStack.jobID = "12345" :=
  ⟨by decide, rfl,
   (spinup_conflict_iff_starting_or_running ⟨2, "", "", ""⟩ envOK
      (some startingStack) "12345" (by decide)).1 rfl,
   rfl⟩

end FloraLab
